import Mathlib

/-!
Verification of the bowliverse event-anchored biomechanical pipeline.

This file contains a shallow embedding, in Lean 4, of the decision logic of
the pipeline's core components, translated from the Python sources:

* `app/workers/elbow/elbow_legality.py`   — `evaluate_elbow_legality` and helpers
* `app/workers/elbow/compute_elbow_signal.py` / `elbow_signal.py` — continuity stage
* `app/workers/events/release_uah.py`    — fps resolution, UAH selection, result assembly
* `app/workers/events/ffc_bfc.py`        — fps resolution, windowing, fallback ladder
* `app/workers/risk/*.py`                — the six risk computations and the risk worker
* `app/action/action_classifier.py`      — the distribution-based MIXED override

Python floats are modelled as rationals (`ℚ`), Python ints as `ℤ`/`ℕ`,
fallible Python code as `Option`/`Except`.  Python's `round` (banker's
rounding, half to even) is modelled exactly.  Transcendental library calls
(`math.atan2`, `math.hypot`, `math.acos`, gaussian smoothing) cannot be
represented exactly over `ℚ`; where a component consumes their results, the
embedding abstracts the transcendental kernel as an explicit function
parameter and the theorems quantify over every such kernel, so each theorem
holds for the real kernel in particular.  Logging, debug-image dumps and
other I/O side effects carry no data flow into the returned values and are
omitted.
-/

/-- Kernel-reducible floor of a rational (`/` on `ℤ` is Euclidean division and
the denominator is positive, so this is the mathematical floor). -/
def ratFloor (q : ℚ) : ℤ := q.num / (q.den : ℤ)

/-- Kernel-reducible ceiling of a rational. -/
def ratCeil (q : ℚ) : ℤ := -(ratFloor (-q))

theorem ratFloor_eq (q : ℚ) : ratFloor q = ⌊q⌋ := Rat.floor_def.symm

theorem ratCeil_eq (q : ℚ) : ratCeil q = ⌈q⌉ := by
  rw [ratCeil, ratFloor_eq, ← Int.ceil_neg, neg_neg]

/-- Python `round(q)` without digits: round half to even, returning an integer. -/
def roundHalfEven (q : ℚ) : ℤ :=
  let f : ℤ := ratFloor q
  let r : ℚ := q - f
  if r < 1/2 then f
  else if 1/2 < r then f + 1
  else if f % 2 = 0 then f else f + 1

/-- Python `round(q, n)`: round half to even at `n` decimal digits. -/
def pyRound (q : ℚ) (n : ℕ) : ℚ :=
  (roundHalfEven (q * 10 ^ n) : ℚ) / 10 ^ n

/-- Python `sorted(vals)` for rationals (ascending). -/
def pySorted (vals : List ℚ) : List ℚ :=
  vals.insertionSort (· ≤ ·)

/-- Python statistics helper `_median` from `elbow_legality.py`: `None` on an
empty list, middle element for odd length, mean of the two middle elements
for even length. -/
def pyMedian (vals : List ℚ) : Option ℚ :=
  if vals = [] then none
  else
    let s := pySorted vals
    let n := s.length
    let mid := n / 2
    if n % 2 = 1 then s.get? mid
    else some ((s.getD (mid - 1) 0 + s.getD mid 0) / 2)

/-- Helper `_percentile` from `elbow_legality.py`: nearest-rank percentile with
Python's banker's rounding of the fractional index. -/
def pyPercentile (vals : List ℚ) (q : ℚ) : Option ℚ :=
  if vals = [] then none
  else
    let s := pySorted vals
    let qc := max 0 (min 1 q)
    let idx : ℤ := roundHalfEven (qc * ((s.length : ℚ) - 1))
    some (s.getD (max 0 (min idx ((s.length : ℤ) - 1))).toNat 0)

/-- Helper `_mad` from `elbow_legality.py`: median absolute deviation from a
given median, `0.0` when the list is empty. -/
def pyMad (vals : List ℚ) (med : ℚ) : ℚ :=
  (pyMedian (vals.map (fun v => |v - med|))).getD 0

/-- Helper `_robust_filter` from `elbow_legality.py`: drop angles outside
`[0, 180]`, then drop MAD outliers (`MAD_K = 3.5`) unless fewer than
`MIN_SAMPLES = 2` remain or the MAD is below `1e-6`.  The debug payload of the
source is not consumed by any verdict logic and is not modelled. -/
def robustFilter (vals : List ℚ) : List ℚ :=
  let in_range := vals.filter (fun v => decide (0 ≤ v) && decide (v ≤ 180))
  if in_range.length < 2 then in_range
  else
    match pyMedian in_range with
    | none => in_range
    | some med =>
      let mad := pyMad in_range med
      if mad < 1/1000000 then in_range
      else in_range.filter (fun v => decide (|v - med| ≤ (7/2) * mad))

/-- Python slice `vals[::step]` for `step ≥ 1`. -/
def sliceStep (vals : List ℚ) (step : ℕ) : List ℚ :=
  (List.range vals.length).filterMap
    (fun i => if i % step = 0 then vals.get? i else none)

/-- Helper `_adaptive_sample` from `elbow_legality.py`: thin a dense series to
at most `max_samples` points via a stride, re-appending the final value when
the stride dropped it (`MIN_STRIDE = 1`). -/
def adaptiveSample (vals : List ℚ) (maxSamples : ℕ) : List ℚ :=
  let n := vals.length
  if n ≤ maxSamples then vals
  else
    let stride := max 1 (n / maxSamples)
    let sampled := sliceStep vals stride
    match sampled.getLast?, vals.getLast? with
    | some a, some b => if a ≠ b then sampled ++ [b] else sampled
    | _, _ => sampled

/-- One entry of the elbow signal consumed by `evaluate_elbow_legality`:
the dict `{"frame": int|None, "angle_deg": float|None, "valid": bool}`. -/
structure ElbowSample where
  frame : Option ℤ
  angle_deg : Option ℚ
  valid : Bool
deriving Repr, DecidableEq

/-- Helper `_build_angle_map` from `elbow_legality.py`: keep valid samples with
both fields present; a later sample for the same frame overwrites an earlier
one (Python dict semantics). -/
def buildAngleEntries (sig : List ElbowSample) : List (ℤ × ℚ) :=
  sig.foldl
    (fun acc it =>
      match it.frame, it.angle_deg with
      | some f, some a =>
        if it.valid then acc.filter (fun p => p.1 != f) ++ [(f, a)] else acc
      | _, _ => acc)
    []

/-- Dictionary lookup `angle_map[f]` (`none` models `f not in angle_map`). -/
def angleMapGet (m : List (ℤ × ℚ)) (f : ℤ) : Option ℚ :=
  (m.find? (fun p => p.1 == f)).map (·.2)

/-- List comprehension
`[angle_map[f] for f in range(start, end + 1) if f in angle_map]`. -/
def windowVals (m : List (ℤ × ℚ)) (start endF : ℤ) : List ℚ :=
  (List.range (endF - start + 1).toNat).filterMap
    (fun k => angleMapGet m (start + (k : ℤ)))

/-- Event anchors consumed by the elbow evaluator: the frames obtained by
`int(events["uah"]["frame"])` / `int(events["release"]["frame"])`, with `none`
modelling the `except` path (missing key or non-integer). -/
structure ElbowEvents where
  uah : Option ℤ
  release : Option ℤ
deriving Repr, DecidableEq

/-- Result of `evaluate_elbow_legality`.  The source returns a dict whose
`verdict` entry is either `"INSUFFICIENT_DATA"` or a base verdict optionally
suffixed `"_LOW_CONFIDENCE"`; the remaining modelled fields are the numeric
payload of the success dict. -/
inductive ElbowResult where
  | insufficientData
  | legality (verdictBase : String) (lowConf : Bool)
      (extension baseline peak : ℚ) (startFrame endFrame : ℤ)
      (validSamples : ℕ) (windowSec : ℚ)
deriving Repr, DecidableEq

/-- Emitted `"verdict"` string of an `ElbowResult`. -/
def ElbowResult.verdictString : ElbowResult → String
  | .insufficientData => "INSUFFICIENT_DATA"
  | .legality base low _ _ _ _ _ _ _ =>
    if low then base ++ "_LOW_CONFIDENCE" else base

/-- Emitted `"extension_deg"` value of an `ElbowResult` (rounded to two
decimals in the source; `None` in every insufficient-data return). -/
def ElbowResult.extensionDeg : ElbowResult → Option ℚ
  | .insufficientData => none
  | .legality _ _ ext _ _ _ _ _ _ => some (pyRound ext 2)

/-- Filtered sample pipeline of `evaluate_elbow_legality`: window restriction,
robust outlier filter, adaptive thinning (`MAX_SAMPLES = 7`). -/
def elbowFiltered (sig : List ElbowSample) (uah rel : ℤ) : List ℚ :=
  adaptiveSample
    (robustFilter (windowVals (buildAngleEntries sig) uah (max uah (rel - 1))))
    7

/-- Verdict chain of `evaluate_elbow_legality`:
`extension < THRESH_LEGAL → LEGAL`, `extension ≤ THRESH_BORDERLINE →
BORDERLINE`, otherwise `ILLEGAL` (thresholds 18.0 and 22.0). -/
def elbowVerdictOf (ext : ℚ) : String :=
  if ext < 18 then "LEGAL"
  else if ext ≤ 22 then "BORDERLINE"
  else "ILLEGAL"

/-- Main entry `evaluate_elbow_legality(elbow_signal, events, fps)` from
`app/workers/elbow/elbow_legality.py` (V14, thresholds
`THRESH_LEGAL = 18.0`, `THRESH_BORDERLINE = 22.0`, `MIN_SAMPLES = 2`,
`IDEAL_SAMPLES = 5`, `IDEAL_WINDOW_SEC = 0.10`, `UAH_BASELINE_MAX_FRAMES = 2`,
`UAH_BASELINE_RATIO = 0.30`). -/
def evaluate_elbow_legality (elbow_signal : List ElbowSample)
    (events : ElbowEvents) (fps : ℚ) : ElbowResult :=
  if elbow_signal = [] ∨ fps ≤ 0 then .insufficientData
  else
    match events.uah, events.release with
    | some uah, some rel =>
      if rel ≤ uah then .insufficientData
      else
        let m := buildAngleEntries elbow_signal
        if m = [] then .insufficientData
        else
          let start := uah
          let endF := max uah (rel - 1)
          let filtered := elbowFiltered elbow_signal uah rel
          if filtered.length < 2 then .insufficientData
          else
            let win_len := filtered.length
            let early_n := max 1 (min 2 (ratCeil ((win_len : ℚ) * (3/10))).toNat)
            let early := filtered.take early_n
            match pyMedian early with
            | none => .insufficientData
            | some baseline =>
              let peakOpt :=
                if 6 ≤ filtered.length then pyPercentile filtered (9/10)
                else filtered.max?
              match peakOpt with
              | none => .insufficientData
              | some peak =>
                let ext := max 0 (peak - baseline)
                let verdictBase := elbowVerdictOf ext
                let win_sec := max 0 (((endF - start + 1 : ℤ) : ℚ) / fps)
                let low_conf : Bool :=
                  decide (filtered.length < 5) || decide (win_sec < 1/10)
                .legality verdictBase low_conf ext baseline peak start endF
                  filtered.length win_sec
    | _, _ => .insufficientData

/-! ## Elbow-signal continuity enforcement

Two implementations of `compute_elbow_signal` exist in the source tree.  Both
walk the frames in order, produce `{"frame", "angle_deg", "valid"}` entries,
and guard per-frame jumps of the elbow angle above
`ANGLE_JUMP_MAX_DEG = 25.0` relative to the previous valid sample:

* `app/workers/elbow/compute_elbow_signal.py` soft-clamps the jump to exactly
  `prev + copysign(25, delta)` and emits the clamped value as valid;
* `app/workers/elbow/elbow_signal.py` (the one imported by the orchestrator)
  discards the sample (`valid = False`) and keeps the previous valid angle as
  the reference.

The per-frame raw angle is produced by `math.acos` over landmark geometry; the
embedding abstracts that kernel as the input list: `some a` is a frame whose
landmark checks passed and whose raw angle is `a`, `none` is any frame that
failed a check (missing landmarks, low visibility, degenerate geometry).  In
the output, `none` is an entry with `angle_deg = None, valid = False` and
`some a` an entry with `angle_deg = a, valid = True`. -/

/-- Python `math.copysign(mag, v)` for `mag ≥ 0` (rationals have no negative
zero). -/
def copysign (mag v : ℚ) : ℚ := if v < 0 then -mag else mag

/-- Per-frame soft clamp of `compute_elbow_signal.py` (lines 129-136). -/
def clampAngle (prev : Option ℚ) (ang : ℚ) : ℚ :=
  match prev with
  | some p => if |ang - p| > 25 then p + copysign 25 (ang - p) else ang
  | none => ang

/-- Frame loop of `compute_elbow_signal` from
`app/workers/elbow/compute_elbow_signal.py`, continuity stage: soft-clamp
implausible jumps, never drop frames for jumps. -/
def elbowSignalClampGo : Option ℚ → List (Option ℚ) → List (Option ℚ)
  | _, [] => []
  | prev, none :: rest => none :: elbowSignalClampGo prev rest
  | prev, some ang :: rest =>
    let a2 := clampAngle prev ang
    some a2 :: elbowSignalClampGo (some a2) rest

/-- Entry point of the clamping variant (`prev_angle` starts at `None`). -/
def compute_elbow_signal_clamped (meas : List (Option ℚ)) : List (Option ℚ) :=
  elbowSignalClampGo none meas

/-- Frame loop of `compute_elbow_signal` from
`app/workers/elbow/elbow_signal.py`, continuity stage (lines 239-244): a jump
above 25° from the previous valid angle marks the frame invalid and leaves
`prev_angle` unchanged. -/
def elbowSignalDiscardGo : Option ℚ → List (Option ℚ) → List (Option ℚ)
  | _, [] => []
  | prev, none :: rest => none :: elbowSignalDiscardGo prev rest
  | prev, some ang :: rest =>
    match prev with
    | some p =>
      if |ang - p| > 25 then none :: elbowSignalDiscardGo (some p) rest
      else some ang :: elbowSignalDiscardGo (some ang) rest
    | none => some ang :: elbowSignalDiscardGo (some ang) rest

/-- Entry point of the discarding variant (`prev_angle` starts at `None`). -/
def compute_elbow_signal_discarding (meas : List (Option ℚ)) : List (Option ℚ) :=
  elbowSignalDiscardGo none meas

/-- Valid subsequence of an emitted elbow signal (entries with
`valid = True`), in emission order. -/
def validAngles (sig : List (Option ℚ)) : List ℚ := sig.filterMap id

/-! ## Action classifier: distribution-based MIXED override

From `src/action/action_classifier.py`.  Toe direction at BFC declares an
intent with an expected hip corridor; the corridor is then validated against
the hip angles sampled around FFC.  The geometry producing the angles uses
`math.atan2`; the MIXED-override stage (lines 197-206) consumes only the
collected angle list `hip_vals`, which the embedding takes as input.  The
stage is reachable only when `len(hip_vals) ≥ MIN_SAMPLES = 2`. -/

/-- Hip corridor constants (degrees). -/
def HIP_CORRIDOR_SIDE_ON : ℚ × ℚ := (45, 90)

def HIP_CORRIDOR_SEMI_OPEN : ℚ × ℚ := (25, 70)

def HIP_CORRIDOR_FRONT_ON : ℚ × ℚ := (0, 40)

/-- Intent declaration `corridor_from_toe_angle(toe_deg)`
(`TOE_SIDE_ON_MIN = 60.0`, `TOE_SEMI_OPEN_MIN = 30.0`). -/
def corridor_from_toe_angle (toe_deg : ℚ) : String × (ℚ × ℚ) :=
  if 60 ≤ toe_deg then ("side_on", HIP_CORRIDOR_SIDE_ON)
  else if 30 ≤ toe_deg then ("semi_open", HIP_CORRIDOR_SEMI_OPEN)
  else ("front_on", HIP_CORRIDOR_FRONT_ON)

/-- Corridor membership `within_corridor(angle, corridor)`. -/
def within_corridor (angle : ℚ) (corridor : ℚ × ℚ) : Bool :=
  decide (corridor.1 ≤ angle) && decide (angle ≤ corridor.2)

/-- Robust MIXED detection stage of `classify_action`
(`src/action/action_classifier.py` lines 197-206): count corridor violations
among the valid hip samples; below a 0.5 violation ratio the intent stands
with compliance 1.0, otherwise the final type is `"mixed"` with
compliance 0.0. -/
def classifyActionMixedStage (intent : String) (corridor : ℚ × ℚ)
    (hip_vals : List ℚ) : String × ℚ :=
  let violations := hip_vals.filter (fun v => !(within_corridor v corridor))
  let violation_ratio : ℚ := (violations.length : ℚ) / ((max 1 hip_vals.length : ℕ) : ℚ)
  if violation_ratio < 1/2 then (intent, 1) else ("mixed", 0)

/-! ## Frames-per-second resolution -/

/-- Line 91 of `app/workers/events/release_uah.py`:
`fps = float(fps or 25.0)`.  Python `or` substitutes the default exactly when
`fps` is falsy, i.e. `None` or `0.0`; a negative fps passes through. -/
def releaseUahFps (fps : Option ℚ) : ℚ :=
  match fps with
  | none => 25
  | some v => if v = 0 then 25 else v

/-- Lines 257-264 of `app/workers/events/ffc_bfc.py`:
`fps_f = float(fps) if fps else 0.0`, then `30.0` when `fps_f ≤ 1e-3`, then
`max(1.0, fps_f)`. -/
def ffcBfcFps (fps : Option ℚ) : ℚ :=
  let fps_f : ℚ :=
    match fps with
    | none => 0
    | some v => if v = 0 then 0 else v
  let fps_f2 := if fps_f ≤ 1/1000 then 30 else fps_f
  max 1 fps_f2

/-- Risk worker / orchestrator fps resolution
(`float(video.get("fps") or 25.0)` in `risk_worker.py`): same falsy rule as
the release detector. -/
def riskWorkerFps (fps : Option ℚ) : ℚ := releaseUahFps fps

/-! ## Temporal anchor events -/

/-- An emitted event dict.  `detect_ffc_bfc` events carry
`{"frame", "confidence", "method"}`; `detect_release_uah` events carry only
`{"frame"}`, modelled by `none` in the optional fields. -/
structure Event where
  frame : ℤ
  confidence : Option ℚ
  method : Option String
deriving Repr, DecidableEq

/-- Python `int(q)`: truncation toward zero. -/
def pyInt (q : ℚ) : ℤ := q.num.tdiv q.den

/-- Python `range(hi, lo, -1)` as a list: `hi, hi-1, …, lo+1`. -/
def descRange (hi lo : ℤ) : List ℤ :=
  (List.range (hi - lo).toNat).map (fun (k : ℕ) => hi - (k : ℤ))

/-- UAH selection of `detect_release_uah`
(`app/workers/events/release_uah.py` lines 396-410): scan backward from
`release_i - 1` over a `0.30·fps` lookback, keep the pre-follow-through frame
whose smoothed upper-arm angle is nearest 90° inside the `[70°, 110°]` band,
then clamp `uah_i` strictly below `release_i` when possible.
`preFT i` abstracts `is_pre_followthrough(i)` and `theta i` the smoothed
angle `theta_s[i]` (a gaussian-filtered arccos series). -/
def uahSelect (release_i : ℤ) (fps : ℚ) (preFT : ℤ → Bool) (theta : ℤ → ℚ) : ℤ :=
  let lb := max 0 (release_i - pyInt ((3/10) * fps))
  let result :=
    (descRange (release_i - 1) lb).foldl
      (fun (acc : ℤ × ℚ) i =>
        if !(preFT i) then acc
        else if 70 ≤ theta i ∧ theta i ≤ 110 then
          let score := |theta i - 90|
          if score < acc.2 then (i, score) else acc
        else acc)
      (max 0 (release_i - 1), 1000000000)
  let uah_i := result.1
  if release_i ≤ uah_i then max 0 (release_i - 1) else uah_i

/-- Return value of `detect_release_uah` on success
(`app/workers/events/release_uah.py` lines 456-467): the `release`/`uah`
event dicts hold only a frame number — the tier confidences and method tags
computed during selection (`selection_confidence`, `selection_method`) are
logged but not emitted.  `frames` is the collected per-frame `"frame"` list;
all indices are in range by construction in the source, out-of-range lookups
never occur and are defaulted to 0 here. -/
structure ReleaseUahResult where
  release : Event
  uah : Event
  delivery_window : ℤ × ℤ
  peak : Event
deriving Repr, DecidableEq

def releaseUahReturn (frames : List ℤ) (release_i uah_i start endW peak_i : ℕ) :
    ReleaseUahResult :=
  { release := { frame := frames.getD release_i 0, confidence := none, method := none }
    uah := { frame := frames.getD uah_i 0, confidence := none, method := none }
    delivery_window := (frames.getD start 0, frames.getD endW 0)
    peak := { frame := frames.getD peak_i 0, confidence := none, method := none } }

/-! ## Risk Signal Engine

From `app/workers/risk/*.py`.  The six computations receive the pose frames,
anchor frames extracted by `_event_frame` (`None` when the event is absent),
and an empty config (so every configurable constant takes its source
default).  Landmarks arrive in one of two shapes: the four torso risks index
a dict keyed by landmark names (entries `{x, y, v}` with `v` defaulting
to 0), while `compute_foot_line_deviation` indexes a plain list of
`{x, y}` points.  A landmark container of any other shape makes every
per-frame check fail, exactly as the `isinstance` guards do in the source.

`compute_hip_shoulder_mismatch` and `compute_lateral_trunk_lean` evaluate
`ffc_frame - 6` / `bfc_frame - 6` before any guard, so a `None` anchor raises
`TypeError`; this is modelled by `Except PyError`.  `run_risk_worker` has no
handler around the computations, so the error propagates out of the worker.

`np.arctan2` (in `trunk_rotation_snap`) and `math.hypot` (in
`foot_line_deviation`) are transcendental; they are abstracted as function
parameters `ratan2` / `rhypot` and the theorems hold for every choice.
`attach_deviation_and_impact` and the visual-attachment steps only add keys
(`benchmark`, `deviation`, `impact`, `visual`) and never write `risk_id`,
`signal_strength` or `confidence`, so the worker embedding returns the list
of `_emit` outputs. -/

/-- Python `TypeError` raised by arithmetic on `None`. -/
inductive PyError where
  | typeError
deriving Repr, DecidableEq

/-- One named landmark entry `{x, y, v?}`. -/
structure NamedPt where
  x : ℚ
  y : ℚ
  v : Option ℚ
deriving Repr, DecidableEq

/-- Name-keyed landmark dict restricted to the keys the torso risks read. -/
structure NamedLms where
  leftHip : Option NamedPt
  rightHip : Option NamedPt
  leftShoulder : Option NamedPt
  rightShoulder : Option NamedPt
  leftAnkle : Option NamedPt
  rightAnkle : Option NamedPt
deriving Repr, DecidableEq

/-- One listed landmark point `{x, y}` (index-keyed MediaPipe shape). -/
structure Pt2 where
  x : ℚ
  y : ℚ
deriving Repr, DecidableEq

/-- Shape of `frame.get("landmarks")`. -/
inductive LmShape where
  | named (m : NamedLms)
  | listed (l : List (Option Pt2))
  | absent
deriving Repr, DecidableEq

/-- One pose frame as consumed by the risk computations. -/
structure RiskFrame where
  landmarks : LmShape
deriving Repr, DecidableEq

/-- A risk payload: `risk_id`, `signal_strength`, `confidence` (the `note`,
`debug` and `metrics` entries carry no data consumed downstream and are not
modelled). -/
structure Risk where
  risk_id : String
  signal_strength : ℚ
  confidence : ℚ
deriving Repr, DecidableEq

/-- Python `range(lo, hi)` as a list of `ℤ`. -/
def ascRange (lo hi : ℤ) : List ℤ :=
  (List.range (hi - lo).toNat).map (fun (k : ℕ) => lo + (k : ℤ))

/-- Indexing `pose_frames[i]` inside a window that starts at `max(0, …)` and
ends at `min(len, …)`, so the index is always in range. -/
def frameAt (frames : List RiskFrame) (i : ℤ) : RiskFrame :=
  frames.getD i.toNat ⟨.absent⟩

/-- `np.mean` of a nonempty list. -/
def npMean (l : List ℚ) : ℚ := l.sum / (l.length : ℚ)

/-- `np.diff`: consecutive differences. -/
def npDiff (l : List ℚ) : List ℚ := l.zipWith (fun a b => b - a) l.tail

/-- `np.percentile(vals, q)` with numpy's default linear interpolation. -/
def npPercentile (vals : List ℚ) (q : ℚ) : ℚ :=
  let s := pySorted vals
  if s.length = 0 then 0
  else
    let pos : ℚ := ((s.length : ℚ) - 1) * q / 100
    let lo := ratFloor pos
    let hi := ratCeil pos
    let a := s.getD lo.toNat 0
    let b := s.getD hi.toNat 0
    a + (b - a) * (pos - (lo : ℚ))

/-- `RISK_CONFIG[...]["floor"]` — every risk uses floor `0.15`
(`risk_worker.py` lines 22-29); each computation reads the same default from
its own (empty) config. -/
def RISK_FLOOR : ℚ := 3/20

/-- Named-landmark window collection shared by the torso risks: walk
`range(lo, hi)`, keep frames whose landmark dict has all required entries,
and map them to a sample. -/
def collectNamed (frames : List RiskFrame) (lo hi : ℤ)
    (f : NamedLms → Option (ℚ × ℚ)) : List (ℚ × ℚ) :=
  (ascRange lo hi).filterMap
    (fun i =>
      match (frameAt frames i).landmarks with
      | .named m => f m
      | _ => none)

/-- `compute_front_foot_braking_shock(pose_frames, ffc_frame, fps, {}, action)`
from `app/workers/risk/front_foot_braking.py` (defaults `pre_window = 6`,
`post_window = 4`, `travel_min = 0.012`). -/
def compute_front_foot_braking_shock (frames : List RiskFrame)
    (ffc_frame : Option ℤ) : Risk :=
  match ffc_frame with
  | none => { risk_id := "front_foot_braking_shock", signal_strength := 0, confidence := 0 }
  | some ffc =>
    if ffc < 0 then
      { risk_id := "front_foot_braking_shock", signal_strength := 0, confidence := 0 }
    else
      let ys :=
        (collectNamed frames (max 0 (ffc - 6)) (min (frames.length : ℤ) (ffc + 4))
          (fun m =>
            match m.leftAnkle, m.rightAnkle with
            | some la, some ra => some (min la.y ra.y, 0)
            | _, _ => none)).map (·.1)
      if ys.length < 5 then
        { risk_id := "front_foot_braking_shock", signal_strength := 0, confidence := 0 }
      else
        let travel := npPercentile ys 95 - npPercentile ys 5
        let signal := min 1 (travel / (12/1000))
        { risk_id := "front_foot_braking_shock",
          signal_strength := pyRound signal 3, confidence := 1 }

/-- `compute_knee_brace_failure(pose_frames, ffc_frame, fps, {})` from
`app/workers/risk/knee_brace_failure.py` (floor default 0.15, window
`[ffc-5, ffc+8)`, drop scale 0.04, confidence `mean(vis) * 0.7`). -/
def compute_knee_brace_failure (frames : List RiskFrame)
    (ffc_frame : Option ℤ) : Risk :=
  match ffc_frame with
  | none => { risk_id := "knee_brace_failure", signal_strength := RISK_FLOOR, confidence := 0 }
  | some ffc =>
    if ffc < 0 then
      { risk_id := "knee_brace_failure", signal_strength := RISK_FLOOR, confidence := 0 }
    else
      let pairs :=
        collectNamed frames (max 0 (ffc - 5)) (min (frames.length : ℤ) (ffc + 8))
          (fun m =>
            match m.leftHip, m.rightHip with
            | some lh, some rh =>
              some ((lh.y + rh.y) / 2, min (lh.v.getD 0) (rh.v.getD 0))
            | _, _ => none)
      let pelvis_y := pairs.map (·.1)
      let vis := pairs.map (·.2)
      if pelvis_y.length < 4 then
        { risk_id := "knee_brace_failure", signal_strength := RISK_FLOOR, confidence := 0 }
      else
        let drop := (pelvis_y.max?.getD 0) - (pelvis_y.min?.getD 0)
        let signal := min 1 (drop / (4/100))
        let confidence := npMean vis * (7/10)
        { risk_id := "knee_brace_failure",
          signal_strength := pyRound (max signal RISK_FLOOR) 3,
          confidence := pyRound confidence 3 }

/-- `compute_trunk_rotation_snap(pose_frames, ffc_frame, uah_frame, fps, {})`
from `app/workers/risk/trunk_rotation_snap.py` (`uah_frame` is accepted but
never read; the shoulder-line orientation uses `np.arctan2`, abstracted as
`ratan2`). -/
def compute_trunk_rotation_snap (ratan2 : ℚ → ℚ → ℚ) (frames : List RiskFrame)
    (ffc_frame : Option ℤ) : Risk :=
  match ffc_frame with
  | none => { risk_id := "trunk_rotation_snap", signal_strength := RISK_FLOOR, confidence := 0 }
  | some ffc =>
    if ffc < 0 then
      { risk_id := "trunk_rotation_snap", signal_strength := RISK_FLOOR, confidence := 0 }
    else
      let pairs :=
        collectNamed frames (max 0 (ffc - 6)) (min (frames.length : ℤ) (ffc + 6))
          (fun m =>
            match m.leftShoulder, m.rightShoulder with
            | some ls, some rs =>
              some (ratan2 (rs.y - ls.y) (rs.x - ls.x),
                min (ls.v.getD 0) (rs.v.getD 0))
            | _, _ => none)
      let angles := pairs.map (·.1)
      let vis := pairs.map (·.2)
      if angles.length < 5 then
        { risk_id := "trunk_rotation_snap", signal_strength := RISK_FLOOR, confidence := 0 }
      else
        let jerk := (((npDiff (npDiff angles)).map (fun v => |v|)).max?).getD 0
        let signal := min 1 (jerk / (12/10))
        let confidence := npMean vis * (7/10)
        { risk_id := "trunk_rotation_snap",
          signal_strength := pyRound (max signal RISK_FLOOR) 3,
          confidence := pyRound confidence 3 }

/-- `compute_hip_shoulder_mismatch(pose_frames, ffc_frame, rel_frame, fps, {})`
from `app/workers/risk/hip_shoulder_mismatch.py`: the first statement
evaluates `max(0, ffc_frame - 6)`, so a `None` anchor raises `TypeError`
before any guard (`rel_frame` is accepted but never read). -/
def compute_hip_shoulder_mismatch (frames : List RiskFrame)
    (ffc_frame : Option ℤ) : Except PyError Risk :=
  match ffc_frame with
  | none => .error .typeError
  | some ffc =>
    let pairs :=
      collectNamed frames (max 0 (ffc - 6)) (min (frames.length : ℤ) (ffc + 6))
        (fun m =>
          match m.leftHip, m.rightHip, m.leftShoulder, m.rightShoulder with
          | some lh, some rh, some ls, some rs =>
            some (rh.x - lh.x, rs.x - ls.x)
          | _, _, _, _ => none)
    if pairs.length < 4 then
      .ok { risk_id := "hip_shoulder_mismatch", signal_strength := RISK_FLOOR,
            confidence := 0 }
    else
      let phase := npMean (pairs.map (fun p => |p.1 - p.2|))
      let signal := min 1 (phase / (1/4))
      .ok { risk_id := "hip_shoulder_mismatch",
            signal_strength := pyRound (max signal RISK_FLOOR) 3,
            confidence := 3/5 }

/-- `compute_lateral_trunk_lean(pose_frames, bfc_frame, ffc_frame, rel_frame,
fps, {})` from `app/workers/risk/lateral_trunk_lean.py`: the window bound
evaluates `bfc_frame - 6` before any guard, so a `None` BFC raises
`TypeError` (`ffc_frame` and `rel_frame` are accepted but never read). -/
def compute_lateral_trunk_lean (frames : List RiskFrame)
    (bfc_frame : Option ℤ) : Except PyError Risk :=
  match bfc_frame with
  | none => .error .typeError
  | some bfc =>
    let pairs :=
      collectNamed frames (max 0 (bfc - 6)) (min (frames.length : ℤ) (bfc + 6))
        (fun m =>
          match m.leftHip, m.rightHip with
          | some lh, some rh =>
            some ((lh.x + rh.x) / 2, min (lh.v.getD 0) (rh.v.getD 0))
          | _, _ => none)
    let xs := pairs.map (·.1)
    let vis := pairs.map (·.2)
    if xs.length < 4 then
      .ok { risk_id := "lateral_trunk_lean", signal_strength := RISK_FLOOR,
            confidence := 0 }
    else
      let drift := (xs.max?.getD 0) - (xs.min?.getD 0)
      let signal := min 1 (drift / (6/100))
      .ok { risk_id := "lateral_trunk_lean",
            signal_strength := pyRound (max signal RISK_FLOOR) 3,
            confidence := pyRound (npMean vis * (7/10)) 3 }

/-- Kernel-reducible absolute value of a rational. -/
def ratAbs (q : ℚ) : ℚ := if q < 0 then -q else q

/-- Helper `_xy(lms, idx)` from `foot_line_deviation.py`: a point only when
the landmark container is a list, the index is in range and the entry is a
point (the float/NaN failure paths of the source have no rational
counterpart). -/
def flXY (lms : LmShape) (idx : ℕ) : Option Pt2 :=
  match lms with
  | .listed l => (l.getD idx none)
  | _ => none

/-- Helper `_mid_hip` (`LEFT_HIP = 23`, `RIGHT_HIP = 24`). -/
def flMidHip (lms : LmShape) : Option Pt2 :=
  match flXY lms 23, flXY lms 24 with
  | some lh, some rh => some ⟨(lh.x + rh.x) * (1/2), (lh.y + rh.y) * (1/2)⟩
  | _, _ => none

/-- Helper `_norm(v)` with the `math.hypot` magnitude abstracted as
`rhypot` (`EPS = 1e-9`). -/
def flNorm (rhypot : ℚ → ℚ → ℚ) (v : Pt2) : Pt2 :=
  let mag := rhypot v.x v.y
  if mag < 1/1000000000 then ⟨0, 0⟩ else ⟨v.x / mag, v.y / mag⟩

/-- Helper `_cross(a, b)`. -/
def flCross (a b : Pt2) : ℚ := a.x * b.y - a.y * b.x

/-- Helper `_signed_offset(D, origin, pt)`. -/
def flSignedOffset (d origin pt : Pt2) : ℚ :=
  flCross d ⟨pt.x - origin.x, pt.y - origin.y⟩

/-- Emitted fields of `compute_foot_line_deviation` (its `metrics` block is
diagnostic only and not modelled). -/
structure FootLineOut where
  signal_strength : ℚ
  confidence : ℚ
  mode : String
deriving Repr, DecidableEq

/-- `compute_foot_line_deviation(pose_frames, bfc_frame, ffc_frame, fps, {},
action=action)` from `app/workers/risk/foot_line_deviation.py` with config
defaults (`collapse = 0.035`, `low = 0.08`, `med = 0.15`).  `handOpt` is the
normalized handedness string extracted from the action dict (`none` when
absent or blank). -/
def compute_foot_line_deviation (rhypot : ℚ → ℚ → ℚ)
    (frames : List RiskFrame) (bfc_frame ffc_frame : Option ℤ)
    (handOpt : Option String) : FootLineOut :=
  let out0 : FootLineOut := { signal_strength := 0, confidence := 0, mode := "OUTWARD_STEP" }
  match bfc_frame, ffc_frame with
  | some bfcF, some ffcF =>
    let n := frames.length
    if n = 0 then out0
    else
      let bfc := max 0 (min bfcF ((n : ℤ) - 1))
      let ffc := max 0 (min ffcF ((n : ℤ) - 1))
      let lms_b := (frameAt frames bfc).landmarks
      let lms_f := (frameAt frames ffc).landmarks
      -- Front/back landmark indices and hand confidence by handedness
      let sel : ℕ × ℕ × ℚ × ℕ × ℕ × ℕ :=
        if handOpt = some "R" then (31, 32, 1, 29, 27, 25)
        else if handOpt = some "L" then (32, 31, 1, 30, 28, 26)
        else (31, 32, 7/20, 29, 27, 25)
      let (front_toe_idx, back_toe_idx, hand_conf, front_heel_idx, front_ankle_idx, front_knee_idx) := sel
      let bToe := flXY lms_b back_toe_idx
      let fToe := flXY lms_f front_toe_idx
      let fHeel := flXY lms_f front_heel_idx
      let fAnk := flXY lms_f front_ankle_idx
      let fKnee := flXY lms_f front_knee_idx
      let lh := flXY lms_f 23
      let rh := flXY lms_f 24
      let mhB := flMidHip lms_b
      let mhF := flMidHip lms_f
      let d0 : Pt2 :=
        match mhB, mhF with
        | some b, some f => flNorm rhypot ⟨f.x - b.x, f.y - b.y⟩
        | _, _ => ⟨0, 0⟩
      let d : Pt2 :=
        if ratAbs d0.x + ratAbs d0.y < 1/1000000000 then
          match bToe, fToe with
          | some b, some f => flNorm rhypot ⟨f.x - b.x, f.y - b.y⟩
          | _, _ => d0
        else d0
      if ratAbs d.x + ratAbs d.y < 1/1000000000 ∨ bToe = none ∨ lh = none ∨
          rh = none ∨ fToe = none then out0
      else
        match bToe, fToe, lh, rh with
        | some bT, some fT, some lhp, some rhp =>
          let hip_w := rhypot (lhp.x - rhp.x) (lhp.y - rhp.y)
          if hip_w < 1/1000000000 then out0
          else
            let toe_off := flSignedOffset d bT fT
            let heel_off := fHeel.map (flSignedOffset d bT)
            let ank_off := fAnk.map (flSignedOffset d bT)
            let knee_off := fKnee.map (flSignedOffset d bT)
            let toe_inward := decide (0 < toe_off)
            let plant_checks :=
              (if heel_off.isSome then 1 else 0) + (if ank_off.isSome then 1 else 0)
            let plant_votes :=
              (match heel_off with
               | some h => if (decide (0 < h)) = toe_inward then 1 else 0
               | none => 0) +
              (match ank_off with
               | some a => if (decide (0 < a)) = toe_inward then 1 else 0
               | none => 0)
            let toe_only_cross :=
              if toe_inward then
                match heel_off, ank_off with
                | some h, _ => decide (h ≤ 0)
                | none, some a => decide (a ≤ 0)
                | none, none => false
              else false
            let collapseData : ℚ × Bool :=
              match knee_off, ank_off with
              | some k, some a =>
                let cn := ratAbs (k - a) / hip_w
                (cn, decide ((35/1000) ≤ cn) &&
                  ((decide (0 < k)) = toe_inward) && ((decide (0 < a)) = toe_inward))
              | _, _ => (0, false)
            let has_collapse := collapseData.2
            let plant_confirmed :=
              decide (0 < plant_checks) && decide (max 1 plant_checks ≤ plant_votes)
            let mode :=
              if toe_inward && (plant_confirmed || has_collapse) then "INWARD_CROSS"
              else "OUTWARD_STEP"
            let offsets :=
              pySorted ([ratAbs toe_off] ++
                (match heel_off with | some h => [ratAbs h] | none => []) ++
                (match ank_off with | some a => [ratAbs a] | none => []))
            let off_med := offsets.getD (offsets.length / 2) 0
            let offset_norm0 := off_med / hip_w
            let offset_norm1 :=
              if toe_only_cross && (mode = "OUTWARD_STEP" : Bool) then
                offset_norm0 * (35/100)
              else offset_norm0
            let offset_norm :=
              if has_collapse && (mode = "INWARD_CROSS" : Bool) then
                offset_norm1 * (115/100)
              else offset_norm1
            let signal : ℚ :=
              if mode = "OUTWARD_STEP" then
                if offset_norm ≤ 8/100 then 1/10
                else if offset_norm ≤ 15/100 then 18/100
                else 1/4
              else
                if offset_norm ≤ 8/100 then 1/5
                else if offset_norm ≤ 15/100 then 45/100
                else 7/10
            let geom_conf1 : ℚ :=
              if heel_off = none ∧ ank_off = none then 1 * (55/100) else 1
            let geom_conf2 :=
              if knee_off = none ∧ mode = "INWARD_CROSS" then geom_conf1 * (3/4)
              else geom_conf1
            let geom_conf :=
              if toe_only_cross && (mode = "OUTWARD_STEP" : Bool) then
                geom_conf2 * (7/10)
              else geom_conf2
            let conf := max 0 (min 1 (hand_conf * geom_conf))
            { signal_strength := max 0 (min 1 signal), confidence := conf, mode := mode }
        | _, _, _, _ => out0
  | _, _ => out0

/-- `_emit(obj, risk_id)` from `risk_worker.py` (lines 54-71): stamp the
risk id and raise `signal_strength` to the configured floor. -/
def riskEmit (r : Risk) (id_str : String) : Risk :=
  { risk_id := id_str,
    signal_strength := max r.signal_strength RISK_FLOOR,
    confidence := r.confidence }

/-- Anchor frames extracted by `_event_frame` for the four event keys. -/
structure Events4 where
  ffc : Option ℤ
  bfc : Option ℤ
  uah : Option ℤ
  release : Option ℤ
deriving Repr, DecidableEq

/-- `run_risk_worker(pose_frames, video, events, action, run_id)` from
`app/workers/risk/risk_worker.py` (lines 245-321): run the six computations
in order, `_emit` each result.  The deviation/impact and visual attachment
steps append presentation keys only and never modify `risk_id`,
`signal_strength` or `confidence`, so the returned value models the six
emitted entries.  An exception inside any computation propagates (there is no
handler), modelled by `Except`. -/
def run_risk_worker (ratan2 rhypot : ℚ → ℚ → ℚ)
    (frames : List RiskFrame) (events : Events4) (handOpt : Option String) :
    Except PyError (List Risk) := do
  let r1 := riskEmit (compute_front_foot_braking_shock frames events.ffc)
    "front_foot_braking_shock"
  let r2 := riskEmit (compute_knee_brace_failure frames events.ffc)
    "knee_brace_failure"
  let r3 := riskEmit (compute_trunk_rotation_snap ratan2 frames events.ffc)
    "trunk_rotation_snap"
  let h ← compute_hip_shoulder_mismatch frames events.ffc
  let r4 := riskEmit h "hip_shoulder_mismatch"
  let l ← compute_lateral_trunk_lean frames events.bfc
  let r5 := riskEmit l "lateral_trunk_lean"
  let fl := compute_foot_line_deviation rhypot frames events.bfc events.ffc handOpt
  let r6 := riskEmit
    { risk_id := "foot_line_deviation", signal_strength := fl.signal_strength,
      confidence := fl.confidence }
    "foot_line_deviation"
  pure [r1, r2, r3, r4, r5, r6]

/-! ## FFC/BFC detector

From `app/workers/events/ffc_bfc.py`.  The windowing, fallback ladder and
event assembly are embedded exactly.  The numeric subsystems that only feed
boolean tests are abstracted as function parameters:

* `exceed i` stands for `vis_ok[i] and R[i] > R_on` in the pelvis-onset scan
  (`R` is a smoothed rotation/translation speed ratio built from `atan2` and
  interpolation);
* `footData` stands for the ankle/toe series finiteness test at line 350
  (`False` = no valid foot landmarks at all);
* `groundedL i` / `groundedR i` stand for `_is_grounded` of the left/right
  ankle+toe series at frame `i` (percentile/MAD scoring of the y-series);
  `_recently_grounded` is embedded on top of them exactly.

Every return path and every emitted frame, confidence and method tag is the
source's own. -/

/-- Helper `_clamp(v, lo, hi) = max(lo, min(hi, v))`. -/
def pyClamp (v lo hi : ℤ) : ℤ := max lo (min hi v)

/-- Pelvis-activity backward scan (`ffc_bfc.py` lines 328-337): walk
`range(win_end, win_start, -1)`; remember the last frame of the first
contiguous exceed-run met, stop at the first non-exceed after the run. -/
def pelvisOnGo (exceed : ℤ → Bool) : List ℤ → Option ℤ → Option ℤ
  | [], acc => acc
  | i :: rest, acc =>
    if exceed i then pelvisOnGo exceed rest (some i)
    else
      match acc with
      | some _ => acc
      | none => pelvisOnGo exceed rest none

/-- `pelvis_on` with the `win_start` fallback when the scan never fires. -/
def pelvisOn (exceed : ℤ → Bool) (win_start win_end : ℤ) : ℤ :=
  (pelvisOnGo exceed (descRange win_end win_start) none).getD win_start

/-- Helper `_recently_grounded(…, t, …, lookback)`: grounded at any of the
previous `lookback` frames, not below `win0`. -/
def recentlyGrounded (grounded : ℤ → Bool) (t lookback win0 : ℤ) : Bool :=
  (descRange (t - 1) (max win0 (t - lookback) - 1)).any grounded

/-- Return value of `detect_ffc_bfc`: `{}`, `{"ffc": …}` or
`{"ffc": …, "bfc": …}`. -/
inductive FfcBfcResult where
  | empty
  | ffcOnly (ffc : Event)
  | ffcBfc (ffc bfc : Event)
deriving Repr, DecidableEq

/-- FFC event of a result, when present. -/
def FfcBfcResult.ffcEvent : FfcBfcResult → Option Event
  | .empty => none
  | .ffcOnly e => some e
  | .ffcBfc e _ => some e

/-- BFC event of a result, when present. -/
def FfcBfcResult.bfcEvent : FfcBfcResult → Option Event
  | .empty => none
  | .ffcOnly _ => none
  | .ffcBfc _ b => some b

/-- All events of a result in emission order. -/
def FfcBfcResult.events : FfcBfcResult → List Event
  | .empty => []
  | .ffcOnly e => [e]
  | .ffcBfc f b => [f, b]

/-- `bfc = _clamp(ffc - max(3, hold), win_start, ffc)` — the BFC placement
shared by every two-event return path (`ffc_bfc.py` lines 353, 389, 401,
413). -/
def bfcOf (ffc win_start hold : ℤ) : ℤ :=
  pyClamp (ffc - max 3 hold) win_start ffc

/-- `detect_ffc_bfc(pose_frames, hand, release_frame, delivery_window, fps)`
from `app/workers/events/ffc_bfc.py` (`delivery_window` is accepted and
ignored by the source; `n` is `len(pose_frames)`;
`release_frame` is `none` when `_as_int` fails;
`validPelvisCount` is the number of frames with a finite pelvis midpoint). -/
def detect_ffc_bfc (n : ℕ) (release_frame : Option ℤ) (fps : Option ℚ)
    (validPelvisCount : ℕ) (exceed : ℤ → Bool) (footData : Bool)
    (groundedL groundedR : ℤ → Bool) : FfcBfcResult :=
  if n < 10 then .empty
  else
    match release_frame with
    | none => .empty
    | some rel =>
      let fps_f := ffcBfcFps fps
      let lookback := roundHalfEven ((9/10) * fps_f)
      let hold := max 3 (roundHalfEven ((1/20) * fps_f))
      let win_start := pyClamp (rel - lookback) 0 ((n : ℤ) - 1)
      let win_end := pyClamp (rel - 2) win_start ((n : ℤ) - 1)
      if win_end ≤ win_start + 2 then
        .ffcOnly { frame := win_start, confidence := some (3/20),
                   method := some "degenerate_window" }
      else if (validPelvisCount : ℤ) < max hold 6 then
        .ffcOnly { frame := win_start, confidence := some (1/10),
                   method := some "insufficient_landmarks" }
      else
        let pelvis_on := pelvisOn exceed win_start win_end
        if !footData then
          let ffc := pelvis_on
          let bfc := bfcOf ffc win_start hold
          .ffcBfc
            { frame := ffc, confidence := some (1/5), method := some "no_foot_data_fallback" }
            { frame := bfc, confidence := some (1/5), method := some "no_foot_data_fallback" }
        else
          let back_recent := max 2 (roundHalfEven ((3/100) * fps_f))
          let scan := ascRange pelvis_on (win_end - hold)
          let okAt := fun i =>
            (groundedL i &&
              (groundedR i || recentlyGrounded groundedR i back_recent win_start)) ||
            (groundedR i &&
              (groundedL i || recentlyGrounded groundedL i back_recent win_start))
          match scan.find? okAt with
          | some ffc =>
            let bfc := bfcOf ffc win_start hold
            .ffcBfc
              { frame := ffc, confidence := some (31/50),
                method := some "pelvis_then_geometry_relaxed" }
              { frame := bfc, confidence := some (7/20), method := some "context_pre_ffc" }
          | none =>
            match scan.find? (fun i => groundedL i || groundedR i) with
            | some ffc =>
              let bfc := bfcOf ffc win_start hold
              .ffcBfc
                { frame := ffc, confidence := some (11/50),
                  method := some "single_foot_fallback" }
                { frame := bfc, confidence := some (11/50),
                  method := some "single_foot_fallback" }
            | none =>
              let ffc0 := pelvis_on + pyInt ((3/4) * (((win_end - pelvis_on) : ℤ) : ℚ))
              let ffc := pyClamp ffc0 pelvis_on win_end
              let bfc := bfcOf ffc win_start hold
              .ffcBfc
                { frame := ffc, confidence := some (3/20),
                  method := some "ultimate_fallback" }
                { frame := bfc, confidence := some (3/20),
                  method := some "ultimate_fallback" }

/-- Boolean well-formedness of an emitted event: carries a confidence in
`[0, 1]` and a nonempty method tag. -/
def wellFormedEvent (e : Event) : Bool :=
  (match e.confidence with
   | some c => decide (0 ≤ c) && decide (c ≤ 1)
   | none => false) &&
  (match e.method with
   | some m => !m.isEmpty
   | none => false)

/-! ## Supporting lemmas -/

theorem windowVals_nil (start endF : ℤ) : windowVals [] start endF = [] := by
  simp [windowVals, angleMapGet]

theorem robustFilter_nil : robustFilter [] = [] := rfl

theorem pyMedian_isSome (vals : List ℚ) (h : vals ≠ []) : (pyMedian vals).isSome := by
  unfold pyMedian
  rw [if_neg h]
  simp only []
  split
  · rename_i hodd
    have hlen : (pySorted vals).length = vals.length := by
      simp [pySorted, List.length_insertionSort]
    have hpos : 0 < vals.length := List.length_pos.mpr h
    have : (pySorted vals).length / 2 < (pySorted vals).length := by
      rw [hlen]; exact Nat.div_lt_self hpos (by norm_num)
    simp [List.get?_eq_getElem?, List.getElem?_eq_getElem this]
  · simp

theorem pyPercentile_isSome (vals : List ℚ) (q : ℚ) (h : vals ≠ []) :
    (pyPercentile vals q).isSome := by
  unfold pyPercentile
  rw [if_neg h]
  simp

theorem max?_isSome (vals : List ℚ) (h : vals ≠ []) : vals.max?.isSome := by
  cases vals with
  | nil => exact absurd rfl h
  | cons a l => simp [List.max?_cons]

theorem elbowFiltered_of_map_nil (sig : List ElbowSample) (uah rel : ℤ)
    (h : buildAngleEntries sig = []) : elbowFiltered sig uah rel = [] := by
  unfold elbowFiltered
  rw [h, windowVals_nil, robustFilter_nil]
  rfl

set_option maxHeartbeats 2000000 in
/-- Inversion: every successful elbow evaluation carries the verdict chain of
its own (floored, hence non-negative) extension. -/
theorem evaluate_elbow_legality_inv
    (sig : List ElbowSample) (ev : ElbowEvents) (fps : ℚ)
    (base : String) (low : Bool) (ext b p : ℚ) (s e : ℤ) (v : ℕ) (w : ℚ)
    (h : evaluate_elbow_legality sig ev fps = .legality base low ext b p s e v w) :
    base = elbowVerdictOf ext ∧ 0 ≤ ext := by
  unfold evaluate_elbow_legality at h
  repeat' split at h
  all_goals try simp only [] at h
  repeat' split at h
  all_goals try exact ElbowResult.noConfusion h
  obtain ⟨hb, -, he, -⟩ := ElbowResult.legality.inj h
  constructor
  · rw [← hb, ← he]
  · rw [← he]; exact le_max_left 0 _

theorem elbowVerdictOf_cases (q : ℚ) :
    elbowVerdictOf q = "LEGAL" ∨ elbowVerdictOf q = "BORDERLINE" ∨
      elbowVerdictOf q = "ILLEGAL" := by
  unfold elbowVerdictOf
  split_ifs <;> simp

set_option maxHeartbeats 1000000 in
/-- With at least `MIN_SAMPLES` filtered samples and well-formed anchors, the
evaluator reaches the legality branch. -/
theorem evaluate_elbow_legality_of_enough_samples
    (sig : List ElbowSample) (uah rel : ℤ) (fps : ℚ)
    (hsig : sig ≠ []) (hfps : 0 < fps) (hrel : uah < rel)
    (hlen : 2 ≤ (elbowFiltered sig uah rel).length) :
    ∃ base low ext b p v w,
      evaluate_elbow_legality sig ⟨some uah, some rel⟩ fps =
        .legality base low ext b p uah (max uah (rel - 1)) v w := by
  have hfil : elbowFiltered sig uah rel ≠ [] := by
    intro hnil
    rw [hnil] at hlen
    exact absurd hlen (by norm_num)
  have hm : buildAngleEntries sig ≠ [] := by
    intro hnil
    exact hfil (elbowFiltered_of_map_nil sig uah rel hnil)
  have hpeakSome : (if 6 ≤ (elbowFiltered sig uah rel).length
      then pyPercentile (elbowFiltered sig uah rel) (9/10)
      else (elbowFiltered sig uah rel).max?).isSome := by
    split
    · exact pyPercentile_isSome _ _ hfil
    · exact max?_isSome _ hfil
  unfold evaluate_elbow_legality
  rw [if_neg (by push_neg; exact ⟨hsig, hfps⟩)]
  simp only []
  rw [if_neg (not_le.mpr hrel), if_neg hm, if_neg (not_lt.mpr hlen)]
  have hearly : List.take
      (1 ⊔ 2 ⊓ (ratCeil (((elbowFiltered sig uah rel).length : ℚ) * (3 / 10))).toNat)
      (elbowFiltered sig uah rel) ≠ [] := by
    intro hnil
    rw [List.take_eq_nil_iff] at hnil
    rcases hnil with hz | hz
    · omega
    · exact hfil hz
  obtain ⟨baseline, hbase⟩ := Option.isSome_iff_exists.mp (pyMedian_isSome _ hearly)
  rw [hbase]
  dsimp only
  split
  · rename_i heq
    rw [heq] at hpeakSome
    exact absurd hpeakSome (by simp)
  · exact ⟨_, _, _, _, _, _, _, rfl⟩

/-! ## Claim C1 -/

/-- C1, counterexample: with existing UAH (frame 0) and RELEASE (frame 5)
anchors and a single valid in-window sample — an outlier-filtered count of 1,
below the configured minimum of 2 — `evaluate_elbow_legality` returns the
`INSUFFICIENT_DATA` verdict, not a low-confidence LEGAL default. -/
theorem C1_low_sample_counterexample :
    (elbowFiltered [⟨some 2, some 100, true⟩] 0 5).length = 1 ∧
    evaluate_elbow_legality [⟨some 2, some 100, true⟩] ⟨some 0, some 5⟩ 30 =
      .insufficientData ∧
    (evaluate_elbow_legality [⟨some 2, some 100, true⟩] ⟨some 0, some 5⟩ 30).verdictString
      = "INSUFFICIENT_DATA" := by
  with_unfolding_all decide

/-- C1, amended: for well-formed anchors (`uah < release`, positive fps,
nonempty signal), a filtered sample count below `MIN_SAMPLES = 2` yields the
`INSUFFICIENT_DATA` result — not a LEGAL default — and a count of at least 2
never yields an insufficient-data verdict. -/
theorem C1_low_sample_amended
    (sig : List ElbowSample) (uah rel : ℤ) (fps : ℚ)
    (hsig : sig ≠ []) (hfps : 0 < fps) (hrel : uah < rel) :
    ((elbowFiltered sig uah rel).length < 2 →
      evaluate_elbow_legality sig ⟨some uah, some rel⟩ fps = .insufficientData) ∧
    (2 ≤ (elbowFiltered sig uah rel).length →
      (evaluate_elbow_legality sig ⟨some uah, some rel⟩ fps).verdictString ≠
        "INSUFFICIENT_DATA") := by
  constructor
  · intro hlt
    unfold evaluate_elbow_legality
    rw [if_neg (by push_neg; exact ⟨hsig, hfps⟩)]
    simp only []
    rw [if_neg (not_le.mpr hrel)]
    by_cases hm : buildAngleEntries sig = []
    · rw [if_pos hm]
    · rw [if_neg hm, if_pos hlt]
  · intro hlen
    obtain ⟨base, low, ext, b, p, v, w, hE⟩ :=
      evaluate_elbow_legality_of_enough_samples sig uah rel fps hsig hfps hrel hlen
    obtain ⟨hbase, -⟩ :=
      evaluate_elbow_legality_inv _ _ _ _ _ _ _ _ _ _ _ _ hE
    rw [hE]
    simp only [ElbowResult.verdictString]
    rcases elbowVerdictOf_cases ext with hv | hv | hv <;>
      rw [hbase, hv] <;> cases low <;> decide

/-- C1, witness for the amended theorem at a two-sample input. -/
theorem C1_low_sample_amended_witness :
    (([⟨some 0, some 10, true⟩, ⟨some 1, some 12, true⟩] : List ElbowSample) ≠ []) ∧
    ((0 : ℚ) < 30) ∧ ((0 : ℤ) < 5) ∧
    (((elbowFiltered [⟨some 0, some 10, true⟩, ⟨some 1, some 12, true⟩] 0 5).length < 2 →
        evaluate_elbow_legality [⟨some 0, some 10, true⟩, ⟨some 1, some 12, true⟩]
          ⟨some 0, some 5⟩ 30 = .insufficientData) ∧
      (2 ≤ (elbowFiltered [⟨some 0, some 10, true⟩, ⟨some 1, some 12, true⟩] 0 5).length →
        (evaluate_elbow_legality [⟨some 0, some 10, true⟩, ⟨some 1, some 12, true⟩]
          ⟨some 0, some 5⟩ 30).verdictString ≠ "INSUFFICIENT_DATA")) :=
  ⟨by decide, by decide, by decide,
    C1_low_sample_amended _ 0 5 30 (by decide) (by decide) (by decide)⟩

/-! ## Claim C5 -/

/-- C5: in every successful elbow evaluation the extension is non-negative
(`extension = max(0, peak - baseline)`) and the base verdict is the fixed
threshold function of the extension alone: `extension < 18 → LEGAL`,
`18 ≤ extension ≤ 22 → BORDERLINE`, `extension > 22 → ILLEGAL`.  The
evaluator is a pure function, so identical input yields an identical verdict
by reflexivity. -/
theorem C5_verdict_thresholds (sig : List ElbowSample) (ev : ElbowEvents) (fps : ℚ)
    (base : String) (low : Bool) (ext b p : ℚ) (s e : ℤ) (v : ℕ) (w : ℚ)
    (h : evaluate_elbow_legality sig ev fps = .legality base low ext b p s e v w) :
    0 ≤ ext ∧
    (base = "LEGAL" ↔ ext < 18) ∧
    (base = "BORDERLINE" ↔ 18 ≤ ext ∧ ext ≤ 22) ∧
    (base = "ILLEGAL" ↔ 22 < ext) := by
  obtain ⟨hb, hnn⟩ := evaluate_elbow_legality_inv _ _ _ _ _ _ _ _ _ _ _ _ h
  subst hb
  refine ⟨hnn, ?_, ?_, ?_⟩ <;> unfold elbowVerdictOf <;> split_ifs with h1 h2 <;>
    constructor <;> intro hc <;>
      first
        | assumption
        | exact absurd hc (by decide)
        | (push_neg at h1; constructor <;> linarith)
        | linarith

/-- C5, witness: a concrete evaluation reaching the ILLEGAL verdict. -/
theorem C5_verdict_thresholds_witness :
    (evaluate_elbow_legality
        [⟨some 0, some 100, true⟩, ⟨some 1, some 110, true⟩, ⟨some 2, some 125, true⟩]
        ⟨some 0, some 4⟩ 30 =
      .legality "ILLEGAL" true 25 100 125 0 3 3 (2/15)) ∧
    ((0 : ℚ) ≤ 25 ∧
      ("ILLEGAL" = "LEGAL" ↔ (25 : ℚ) < 18) ∧
      ("ILLEGAL" = "BORDERLINE" ↔ (18 : ℚ) ≤ 25 ∧ (25 : ℚ) ≤ 22) ∧
      ("ILLEGAL" = "ILLEGAL" ↔ (22 : ℚ) < 25)) :=
  ⟨by with_unfolding_all decide,
    C5_verdict_thresholds
      [⟨some 0, some 100, true⟩, ⟨some 1, some 110, true⟩, ⟨some 2, some 125, true⟩]
      ⟨some 0, some 4⟩ 30 "ILLEGAL" true 25 100 125 0 3 3 (2/15)
      (by with_unfolding_all decide)⟩

/-! ## Claim C6 -/

/-- C6, counterexample: toe angle 10° declares intent `front_on` with hip
corridor `(0, 40)`; hip samples `[10, 50]` contain exactly one corridor
violation out of two valid samples — not a strict majority — yet the final
type is overridden to `mixed` with compliance 0, because the source tests
`violation_ratio < 0.5` and a 1-of-2 outlier reaches ratio 0.5 exactly. -/
theorem C6_single_outlier_counterexample :
    corridor_from_toe_angle 10 = ("front_on", HIP_CORRIDOR_FRONT_ON) ∧
    (([10, 50] : List ℚ).filter
      (fun v => !(within_corridor v HIP_CORRIDOR_FRONT_ON))).length = 1 ∧
    classifyActionMixedStage "front_on" HIP_CORRIDOR_FRONT_ON [10, 50] =
      ("mixed", 0) := by
  with_unfolding_all decide

/-- C6, amended: the MIXED override fires exactly when the corridor
violations are at least half of the valid hip samples
(`violation_ratio ≥ 0.5`), not only on a strict majority; consequently a
single outlier among two valid samples does yield MIXED, while a single
outlier among three or more valid samples never does and leaves the primary
intent with full compliance. -/
theorem C6_mixed_majority_amended (intent : String) (corridor : ℚ × ℚ)
    (hip_vals : List ℚ) (hne : 1 ≤ hip_vals.length) :
    (classifyActionMixedStage intent corridor hip_vals = ("mixed", 0) ↔
      hip_vals.length ≤
        2 * (hip_vals.filter (fun v => !(within_corridor v corridor))).length) ∧
    ((hip_vals.filter (fun v => !(within_corridor v corridor))).length = 1 →
      3 ≤ hip_vals.length →
      classifyActionMixedStage intent corridor hip_vals = (intent, 1)) := by
  have hmax : max 1 hip_vals.length = hip_vals.length := Nat.max_eq_right hne
  have hpos : (0 : ℚ) < (hip_vals.length : ℚ) := by
    exact_mod_cast Nat.lt_of_lt_of_le Nat.zero_lt_one hne
  have hratio :
      ((((hip_vals.filter (fun v => !(within_corridor v corridor))).length : ℚ)) /
          ((max 1 hip_vals.length : ℕ) : ℚ) < 1/2) ↔
        2 * (hip_vals.filter (fun v => !(within_corridor v corridor))).length <
          hip_vals.length := by
    rw [hmax, div_lt_iff₀ hpos]
    constructor
    · intro h
      have h2 : ((2 * (hip_vals.filter (fun v => !(within_corridor v corridor))).length : ℕ) : ℚ) <
          (hip_vals.length : ℚ) := by push_cast; linarith
      exact_mod_cast h2
    · intro h
      have h2 : ((2 * (hip_vals.filter (fun v => !(within_corridor v corridor))).length : ℕ) : ℚ) <
          (hip_vals.length : ℚ) := by exact_mod_cast h
      push_cast at h2
      linarith
  constructor
  · unfold classifyActionMixedStage
    simp only []
    split
    · rename_i hlt
      rw [hratio] at hlt
      constructor
      · intro hcontra
        have : (1 : ℚ) = 0 := congrArg Prod.snd hcontra
        exact absurd this (by norm_num)
      · intro hge
        omega
    · rename_i hlt
      rw [hratio] at hlt
      simp only [true_iff]
      omega
  · intro hone hlen3
    unfold classifyActionMixedStage
    simp only []
    rw [if_pos]
    rw [hratio, hone]
    omega

/-- C6, witness for the amended theorem: one outlier among three samples in
the `side_on` corridor leaves the intent standing with compliance 1. -/
theorem C6_mixed_majority_amended_witness :
    (1 ≤ ([50, 60, 100] : List ℚ).length) ∧
    ((classifyActionMixedStage "side_on" HIP_CORRIDOR_SIDE_ON [50, 60, 100] =
        ("mixed", 0) ↔
      ([50, 60, 100] : List ℚ).length ≤
        2 * (([50, 60, 100] : List ℚ).filter
          (fun v => !(within_corridor v HIP_CORRIDOR_SIDE_ON))).length) ∧
     ((([50, 60, 100] : List ℚ).filter
          (fun v => !(within_corridor v HIP_CORRIDOR_SIDE_ON))).length = 1 →
        3 ≤ ([50, 60, 100] : List ℚ).length →
        classifyActionMixedStage "side_on" HIP_CORRIDOR_SIDE_ON [50, 60, 100] =
          ("side_on", 1))) :=
  ⟨by decide, C6_mixed_majority_amended "side_on" HIP_CORRIDOR_SIDE_ON
    [50, 60, 100] (by decide)⟩

/-! ## Claim C7 -/

theorem clampAngle_close (p ang : ℚ) : |clampAngle (some p) ang - p| ≤ 25 := by
  have hred : clampAngle (some p) ang =
      if |ang - p| > 25 then p + copysign 25 (ang - p) else ang := rfl
  rw [hred]
  split_ifs with hd
  · unfold copysign
    split_ifs with hs
    · have h1 : p + -(25 : ℚ) - p = -25 := by ring
      rw [h1]
      rw [abs_neg, abs_of_nonneg] <;> norm_num
    · have h1 : p + (25 : ℚ) - p = 25 := by ring
      rw [h1]
      rw [abs_of_nonneg] <;> norm_num
  · exact not_lt.mp hd

theorem clampAngle_exact (p ang : ℚ) (hjump : 25 < |ang - p|) :
    clampAngle (some p) ang = p + copysign 25 (ang - p) ∧
    |clampAngle (some p) ang - p| = 25 := by
  have hred : clampAngle (some p) ang =
      if |ang - p| > 25 then p + copysign 25 (ang - p) else ang := rfl
  rw [hred, if_pos hjump]
  refine ⟨rfl, ?_⟩
  unfold copysign
  split_ifs with hs
  · have h1 : p + -(25 : ℚ) - p = -25 := by ring
    rw [h1]
    rw [abs_neg, abs_of_nonneg] <;> norm_num
  · have h1 : p + (25 : ℚ) - p = 25 := by ring
    rw [h1]
    rw [abs_of_nonneg] <;> norm_num

theorem clamp_chain_some (meas : List (Option ℚ)) :
    ∀ p : ℚ, List.Chain (fun a b => |b - a| ≤ 25) p
      (validAngles (elbowSignalClampGo (some p) meas)) := by
  induction meas with
  | nil => intro p; exact List.Chain.nil
  | cons head rest ih =>
    intro p
    cases head with
    | none =>
      simp only [elbowSignalClampGo, validAngles, List.filterMap_cons]
      exact ih p
    | some ang =>
      simp only [elbowSignalClampGo, validAngles, List.filterMap_cons]
      exact List.Chain.cons (clampAngle_close p ang) (ih _)

theorem discard_chain_some (meas : List (Option ℚ)) :
    ∀ p : ℚ, List.Chain (fun a b => |b - a| ≤ 25) p
      (validAngles (elbowSignalDiscardGo (some p) meas)) := by
  induction meas with
  | nil => intro p; exact List.Chain.nil
  | cons head rest ih =>
    intro p
    cases head with
    | none =>
      simp only [elbowSignalDiscardGo, validAngles, List.filterMap_cons]
      exact ih p
    | some ang =>
      simp only [elbowSignalDiscardGo]
      split
      · simp only [validAngles, List.filterMap_cons]
        exact ih p
      · rename_i hle
        rw [not_lt] at hle
        simp only [validAngles, List.filterMap_cons]
        exact List.Chain.cons hle (ih ang)

/-- C7: in both elbow-signal implementations, every pair of consecutive valid
samples of the emitted signal differs by at most the fixed 25° maximum jump —
the clamping variant emits exactly the maximum plausible delta from the
previous valid sample when the raw jump exceeds it, and the discarding
variant marks the jumping frame invalid while keeping the previous valid
reference. -/
theorem C7_continuity_invariant (meas : List (Option ℚ)) :
    List.Chain' (fun a b => |b - a| ≤ 25)
      (validAngles (compute_elbow_signal_clamped meas)) ∧
    List.Chain' (fun a b => |b - a| ≤ 25)
      (validAngles (compute_elbow_signal_discarding meas)) ∧
    (∀ p ang : ℚ, 25 < |ang - p| →
      clampAngle (some p) ang = p + copysign 25 (ang - p) ∧
      |clampAngle (some p) ang - p| = 25) := by
  refine ⟨?_, ?_, fun p ang hjump => clampAngle_exact p ang hjump⟩
  · unfold compute_elbow_signal_clamped
    induction meas with
    | nil => exact List.chain'_nil
    | cons head rest ih =>
      cases head with
      | none =>
        simp only [elbowSignalClampGo, validAngles, List.filterMap_cons]
        exact ih
      | some ang =>
        simp only [elbowSignalClampGo, validAngles, List.filterMap_cons, clampAngle]
        exact clamp_chain_some rest ang
  · unfold compute_elbow_signal_discarding
    induction meas with
    | nil => exact List.chain'_nil
    | cons head rest ih =>
      cases head with
      | none =>
        simp only [elbowSignalDiscardGo, validAngles, List.filterMap_cons]
        exact ih
      | some ang =>
        simp only [elbowSignalDiscardGo, validAngles, List.filterMap_cons]
        exact discard_chain_some rest ang

/-- C7, witness: a 90° single-frame spike between smooth values is clamped to
exactly 25° away in the clamping variant and is dropped in the discarding
variant. -/
theorem C7_continuity_invariant_witness :
    List.Chain' (fun a b => |b - a| ≤ 25)
      (validAngles (compute_elbow_signal_clamped [some 20, some 110, some 21])) ∧
    List.Chain' (fun a b => |b - a| ≤ 25)
      (validAngles (compute_elbow_signal_discarding [some 20, some 110, some 21])) ∧
    ((25 : ℚ) < |(110 : ℚ) - 20|) ∧
    clampAngle (some 20) 110 = 20 + copysign 25 (110 - 20) ∧
    |clampAngle (some 20) 110 - 20| = 25 :=
  ⟨(C7_continuity_invariant [some 20, some 110, some 21]).1,
   (C7_continuity_invariant [some 20, some 110, some 21]).2.1,
   by with_unfolding_all decide,
   ((C7_continuity_invariant []).2.2 20 110 (by with_unfolding_all decide)).1,
   ((C7_continuity_invariant []).2.2 20 110 (by with_unfolding_all decide)).2⟩

/-! ## Claim C9 -/

/-- C9, counterexample: the FFC/BFC detector substitutes 30 fps — not 25 —
when the supplied fps is 0 or missing, and the release detector passes a
negative fps through unchanged instead of substituting any default. -/
theorem C9_fps_default_counterexample :
    ffcBfcFps (some 0) = 30 ∧ ffcBfcFps none = 30 ∧ ((30 : ℚ) ≠ 25) ∧
    releaseUahFps (some (-5)) = -5 ∧ ((-5 : ℚ) ≠ 25) := by
  with_unfolding_all decide

/-- C9, amended: the release/UAH detector and the risk worker substitute 25
fps exactly when the supplied value is missing or 0 (a negative value passes
through), while the FFC/BFC detector substitutes 30 fps whenever the value is
missing or at most 0.001. -/
theorem C9_fps_default_amended :
    releaseUahFps none = 25 ∧ releaseUahFps (some 0) = 25 ∧
    (∀ v : ℚ, v ≠ 0 → releaseUahFps (some v) = v) ∧
    ffcBfcFps none = 30 ∧
    (∀ v : ℚ, v ≤ 1/1000 → ffcBfcFps (some v) = 30) ∧
    riskWorkerFps none = 25 ∧ riskWorkerFps (some 0) = 25 := by
  refine ⟨rfl, by norm_num [releaseUahFps], ?_, by norm_num [ffcBfcFps], ?_,
    rfl, by norm_num [riskWorkerFps, releaseUahFps]⟩
  · intro v hv
    simp [releaseUahFps, hv]
  · intro v hv
    unfold ffcBfcFps
    simp only []
    by_cases h0 : v = 0
    · rw [if_pos h0]
      norm_num
    · rw [if_neg h0, if_pos hv]
      norm_num

/-- C9, witness: a positive fps passes through the release detector and a
negative fps is replaced by 30 in the FFC/BFC detector. -/
theorem C9_fps_default_amended_witness :
    ((17 : ℚ) ≠ 0) ∧ releaseUahFps (some 17) = 17 ∧
    ((-2 : ℚ) ≤ 1/1000) ∧ ffcBfcFps (some (-2)) = 30 :=
  ⟨by norm_num, C9_fps_default_amended.2.2.1 17 (by norm_num), by norm_num,
   C9_fps_default_amended.2.2.2.2.1 (-2) (by norm_num)⟩

/-! ## Claim C10 -/

/-- C10: on a 10-frame clip with release at frame 1 and fps 30, the derived
upstream window is degenerate (`win_end = 0 ≤ win_start + 2`) and
`detect_ffc_bfc` returns only `{"ffc": …}` — a non-empty result whose FFC
event is present while BFC is absent. -/
theorem C10_ffc_without_bfc :
    detect_ffc_bfc 10 (some 1) (some 30) 0 (fun _ => false) false
        (fun _ => false) (fun _ => false) =
      .ffcOnly { frame := 0, confidence := some (3/20),
                 method := some "degenerate_window" } ∧
    (detect_ffc_bfc 10 (some 1) (some 30) 0 (fun _ => false) false
        (fun _ => false) (fun _ => false)).ffcEvent.isSome = true ∧
    (detect_ffc_bfc 10 (some 1) (some 30) 0 (fun _ => false) false
        (fun _ => false) (fun _ => false)).bfcEvent = none := by
  with_unfolding_all decide

/-! ## Claims C3 and C4 -/

/-- C3: on a run whose events carry no FFC anchor, the Risk Signal Engine
does not emit six floored entries — `compute_hip_shoulder_mismatch` evaluates
`ffc_frame - 6` on `None` and raises `TypeError`, which `run_risk_worker`
propagates (the first three computations guard the missing anchor and return
their floor, the fourth does not). -/
theorem C3_risk_worker_raises_on_missing_ffc :
    run_risk_worker (fun _ _ => 0) (fun _ _ => 0) [] ⟨none, none, none, none⟩ none =
      .error .typeError ∧
    compute_hip_shoulder_mismatch [] none = .error .typeError ∧
    compute_front_foot_braking_shock [] none =
      { risk_id := "front_foot_braking_shock", signal_strength := 0, confidence := 0 } ∧
    compute_knee_brace_failure [] none =
      { risk_id := "knee_brace_failure", signal_strength := RISK_FLOOR, confidence := 0 } := by
  refine ⟨?_, ?_, ?_, ?_⟩ <;> with_unfolding_all rfl

/-- C4: on a run with an FFC anchor but no BFC anchor, the risk worker's
output is not a six-entry list — `compute_lateral_trunk_lean` evaluates
`bfc_frame - 6` on `None` and raises `TypeError`, which the worker
propagates, so no entry list exists at all for that run. -/
theorem C4_risk_worker_raises_on_missing_bfc :
    run_risk_worker (fun _ _ => 0) (fun _ _ => 0) [] ⟨some 5, none, none, none⟩ none =
      .error .typeError ∧
    compute_lateral_trunk_lean [] none = .error .typeError ∧
    compute_hip_shoulder_mismatch [] (some 5) =
      .ok { risk_id := "hip_shoulder_mismatch", signal_strength := RISK_FLOOR,
            confidence := 0 } := by
  refine ⟨?_, ?_, ?_⟩ <;> with_unfolding_all rfl

/-! ## Claim C8 -/

/-- C8, counterexample: the RELEASE and UAH events assembled by
`detect_release_uah` carry only a frame — no confidence value and no method
tag — contradicting the claim that every emitted event carries both. -/
theorem C8_release_event_counterexample :
    (releaseUahReturn [0, 1, 2, 3, 4, 5] 5 3 2 5 4).release.frame = 5 ∧
    (releaseUahReturn [0, 1, 2, 3, 4, 5] 5 3 2 5 4).release.confidence = none ∧
    (releaseUahReturn [0, 1, 2, 3, 4, 5] 5 3 2 5 4).release.method = none ∧
    (releaseUahReturn [0, 1, 2, 3, 4, 5] 5 3 2 5 4).uah.confidence = none ∧
    (releaseUahReturn [0, 1, 2, 3, 4, 5] 5 3 2 5 4).uah.method = none := by
  with_unfolding_all decide

/-- C8, amended: every event emitted by `detect_ffc_bfc` carries a frame, a
confidence in `[0, 1]` and a nonempty method tag, and at most one instance
per type is emitted; the RELEASE/UAH events of `detect_release_uah` carry
only a frame (their selection confidence and method are computed and logged
but not emitted), one instance each. -/
theorem C8_event_fields_amended :
    (∀ (n : ℕ) (rf : Option ℤ) (fps : Option ℚ) (vpc : ℕ) (exceed : ℤ → Bool)
        (fd : Bool) (gl gr : ℤ → Bool),
      ((detect_ffc_bfc n rf fps vpc exceed fd gl gr).events.all wellFormedEvent) = true) ∧
    (∀ (frames : List ℤ) (r u s e pk : ℕ),
      (releaseUahReturn frames r u s e pk).release.confidence = none ∧
      (releaseUahReturn frames r u s e pk).release.method = none ∧
      (releaseUahReturn frames r u s e pk).uah.confidence = none ∧
      (releaseUahReturn frames r u s e pk).uah.method = none) := by
  constructor
  · intro n rf fps vpc exceed fd gl gr
    unfold detect_ffc_bfc
    repeat' split
    all_goals try simp only []
    repeat' split
    all_goals try simp only []
    repeat' split
    all_goals with_unfolding_all rfl
  · intro frames r u s e pk
    exact ⟨rfl, rfl, rfl, rfl⟩

/-! ## Claim C2 -/

theorem mem_descRange {i hi lo : ℤ} (h : i ∈ descRange hi lo) : lo < i ∧ i ≤ hi := by
  unfold descRange at h
  obtain ⟨k, hk, hi2⟩ := List.mem_map.mp h
  rw [List.mem_range] at hk
  subst hi2
  omega

theorem mem_ascRange {i lo hi : ℤ} (h : i ∈ ascRange lo hi) : lo ≤ i ∧ i < hi := by
  unfold ascRange at h
  obtain ⟨k, hk, hi2⟩ := List.mem_map.mp h
  rw [List.mem_range] at hk
  subst hi2
  omega

theorem pelvisOnGo_cases (exceed : ℤ → Bool) :
    ∀ (l : List ℤ) (acc : Option ℤ),
      pelvisOnGo exceed l acc = acc ∨ ∃ i ∈ l, pelvisOnGo exceed l acc = some i := by
  intro l
  induction l with
  | nil => intro acc; exact Or.inl rfl
  | cons i rest ih =>
    intro acc
    unfold pelvisOnGo
    split
    · rcases ih (some i) with h | ⟨j, hj, heq⟩
      · exact Or.inr ⟨i, List.mem_cons_self i rest, h⟩
      · exact Or.inr ⟨j, List.mem_cons_of_mem i hj, heq⟩
    · split
      · exact Or.inl rfl
      · rcases ih none with h | ⟨j, hj, heq⟩
        · exact Or.inl h
        · exact Or.inr ⟨j, List.mem_cons_of_mem i hj, heq⟩

theorem pelvisOn_bounds (exceed : ℤ → Bool) (ws we : ℤ) (hwe : ws ≤ we) :
    ws ≤ pelvisOn exceed ws we ∧ pelvisOn exceed ws we ≤ we := by
  unfold pelvisOn
  rcases pelvisOnGo_cases exceed (descRange we ws) none with h | ⟨j, hj, heq⟩
  · rw [h]
    exact ⟨le_refl ws, hwe⟩
  · rw [heq]
    have := mem_descRange hj
    simp only [Option.getD_some]
    omega

theorem bfcOf_le_ffc (ffc ws hold : ℤ) (hws : ws ≤ ffc) : bfcOf ffc ws hold ≤ ffc := by
  unfold bfcOf pyClamp
  exact max_le hws (min_le_left _ _)

theorem winEnd_le (rel ws m : ℤ) (hdeg : ¬ max ws m ≤ ws + 2) (hm : m ≤ rel - 2) :
    max ws m ≤ rel - 2 := by
  rcases max_cases ws m with ⟨he, -⟩ | ⟨he, -⟩ <;> omega

set_option maxHeartbeats 2000000 in
theorem detect_ffc_bfc_ordering
    (n : ℕ) (rel : ℤ) (fps : Option ℚ) (vpc : ℕ) (exceed : ℤ → Bool)
    (fd : Bool) (gl gr : ℤ → Bool) (fe be : Event)
    (h : detect_ffc_bfc n (some rel) fps vpc exceed fd gl gr = .ffcBfc fe be) :
    be.frame ≤ fe.frame ∧ fe.frame < rel := by
  unfold detect_ffc_bfc at h
  split at h
  · exact FfcBfcResult.noConfusion h
  simp only [] at h
  split at h
  · exact FfcBfcResult.noConfusion h
  rename_i hdeg
  split at h
  · exact FfcBfcResult.noConfusion h
  have hws_we : pyClamp (rel - roundHalfEven (9/10 * ffcBfcFps fps)) 0 ((n : ℤ) - 1) ≤
      pyClamp (rel - 2) (pyClamp (rel - roundHalfEven (9/10 * ffcBfcFps fps)) 0 ((n : ℤ) - 1)) ((n : ℤ) - 1) :=
    le_max_left _ _
  have hwe_rel : pyClamp (rel - 2) (pyClamp (rel - roundHalfEven (9/10 * ffcBfcFps fps)) 0 ((n : ℤ) - 1)) ((n : ℤ) - 1) ≤ rel - 2 := by
    refine winEnd_le rel _ _ hdeg (min_le_right _ _)
  set ws := pyClamp (rel - roundHalfEven (9/10 * ffcBfcFps fps)) 0 ((n : ℤ) - 1) with hws_def
  set we := pyClamp (rel - 2) ws ((n : ℤ) - 1) with hwe_def
  set hold := max 3 (roundHalfEven (1/20 * ffcBfcFps fps)) with hhold_def
  have hhold3 : 3 ≤ hold := le_max_left _ _
  have hpo := pelvisOn_bounds exceed ws we hws_we
  split at h
  · -- no_foot branch
    obtain ⟨h1, h2⟩ := FfcBfcResult.ffcBfc.inj h
    rw [← h1, ← h2]
    dsimp only
    refine ⟨bfcOf_le_ffc _ _ _ hpo.1, ?_⟩
    omega
  · split at h
    · -- main find? branch
      rename_i ffcv heq
      obtain ⟨h1, h2⟩ := FfcBfcResult.ffcBfc.inj h
      rw [← h1, ← h2]
      dsimp only
      have hmem := mem_ascRange (List.mem_of_find?_eq_some heq)
      refine ⟨bfcOf_le_ffc _ _ _ (by omega), ?_⟩
      omega
    · split at h
      · -- single-foot fallback
        rename_i ffcv heq
        obtain ⟨h1, h2⟩ := FfcBfcResult.ffcBfc.inj h
        rw [← h1, ← h2]
        dsimp only
        have hmem := mem_ascRange (List.mem_of_find?_eq_some heq)
        refine ⟨bfcOf_le_ffc _ _ _ (by omega), ?_⟩
        omega
      · -- ultimate fallback
        obtain ⟨h1, h2⟩ := FfcBfcResult.ffcBfc.inj h
        rw [← h1, ← h2]
        dsimp only
        have hfe_lo : pelvisOn exceed ws we ≤
            pyClamp (pelvisOn exceed ws we + pyInt (3/4 * ((we - pelvisOn exceed ws we : ℤ) : ℚ)))
              (pelvisOn exceed ws we) we := le_max_left _ _
        have hfe_hi : pyClamp (pelvisOn exceed ws we + pyInt (3/4 * ((we - pelvisOn exceed ws we : ℤ) : ℚ)))
            (pelvisOn exceed ws we) we ≤ we :=
          max_le hpo.2 (min_le_left _ _)
        refine ⟨bfcOf_le_ffc _ _ _ (by omega), ?_⟩
        omega

theorem uahSelect_lt (release_i : ℤ) (fps : ℚ) (preFT : ℤ → Bool) (theta : ℤ → ℚ)
    (hrel : 1 ≤ release_i) : uahSelect release_i fps preFT theta < release_i := by
  unfold uahSelect
  simp only []
  split
  · rcases max_cases 0 (release_i - 1) with ⟨he, -⟩ | ⟨he, -⟩ <;> omega
  · rename_i hle
    omega

/-- C2, counterexample: a run whose pelvis-activity scan never fires
(steady pelvis, `exceed ≡ false`) and whose foot landmark series are absent
takes the no-foot-data fallback with `ffc = pelvis_on = win_start`, and the
BFC clamp `_clamp(ffc - max(3, hold), win_start, ffc)` lands on the same
frame: BFC = FFC = 8, so `BFC.frame < FFC.frame` fails while all four events
can coexist in the run's event dict. -/
theorem C2_ordering_counterexample :
    detect_ffc_bfc 40 (some 35) (some 30) 10 (fun _ => false) false
        (fun _ => false) (fun _ => false) =
      .ffcBfc
        { frame := 8, confidence := some (1/5), method := some "no_foot_data_fallback" }
        { frame := 8, confidence := some (1/5), method := some "no_foot_data_fallback" } ∧
    ¬((8 : ℤ) < 8) :=
  ⟨by with_unfolding_all decide, by decide⟩

/-- C2, amended: the detectors enforce the ordering invariants only in the
non-strict/guarded form — whenever `detect_ffc_bfc` returns both events,
`BFC.frame ≤ FFC.frame < RELEASE.frame` (equality `BFC = FFC` occurs when FFC
sits at the window start), and the UAH selection satisfies
`UAH < RELEASE` whenever the release frame is at least 1 (for a release at
frame 0 the clamp `max(0, release - 1)` yields `UAH = RELEASE = 0`). -/
theorem C2_ordering_amended :
    (∀ (n : ℕ) (rel : ℤ) (fps : Option ℚ) (vpc : ℕ) (exceed : ℤ → Bool)
        (fd : Bool) (gl gr : ℤ → Bool) (fe be : Event),
      detect_ffc_bfc n (some rel) fps vpc exceed fd gl gr = .ffcBfc fe be →
        be.frame ≤ fe.frame ∧ fe.frame < rel) ∧
    (∀ (release_i : ℤ) (fps : ℚ) (preFT : ℤ → Bool) (theta : ℤ → ℚ),
      1 ≤ release_i → uahSelect release_i fps preFT theta < release_i) :=
  ⟨fun n rel fps vpc exceed fd gl gr fe be h =>
      detect_ffc_bfc_ordering n rel fps vpc exceed fd gl gr fe be h,
   fun r fps preFT theta h => uahSelect_lt r fps preFT theta h⟩

/-- C2, witness: the amended ordering applied to a concrete two-event run and
to a concrete UAH selection. -/
theorem C2_ordering_amended_witness :
    (detect_ffc_bfc 40 (some 35) (some 30) 10 (fun _ => false) false
        (fun _ => false) (fun _ => false) =
      .ffcBfc
        { frame := 8, confidence := some (1/5), method := some "no_foot_data_fallback" }
        { frame := 8, confidence := some (1/5), method := some "no_foot_data_fallback" }) ∧
    ((8 : ℤ) ≤ 8 ∧ (8 : ℤ) < 35) ∧
    ((1 : ℤ) ≤ 5) ∧ uahSelect 5 30 (fun _ => true) (fun _ => 90) < 5 :=
  ⟨by with_unfolding_all decide,
   C2_ordering_amended.1 40 35 (some 30) 10 (fun _ => false) false
     (fun _ => false) (fun _ => false)
     { frame := 8, confidence := some (1/5), method := some "no_foot_data_fallback" }
     { frame := 8, confidence := some (1/5), method := some "no_foot_data_fallback" }
     (by with_unfolding_all decide),
   by decide,
   C2_ordering_amended.2 5 30 (fun _ => true) (fun _ => 90) (by decide)⟩
